import Mathlib

/-!
Shallow embedding of the snake game simulation in `src/script.js`.

Conventions used throughout:
* JS numbers are embedded as `ℤ` for grid coordinates / scores and as `ℚ`
  for timestamps and the rocket's continuous pixel position (the affected
  arithmetic - addition, multiplication, division by constants, comparison -
  is exact in both models for the values that arise).
* `Math.random()` results are supplied as explicit inputs (rational numbers
  in `[0, 1)`, or streams of them).  The unbounded rejection-sampling loop
  `randomEmptyCellTotal` is given a fuel parameter: `none` means the loop is
  still running after `fuel` iterations, so `∀ fuel, ... = none` expresses
  divergence.
* `Math.hypot(dx, dy) > 4` on integer inputs is embedded as
  `dx^2 + dy^2 > 16`, and `Math.hypot(dx, dy) <= 3` as `dx^2 + dy^2 <= 9`;
  both are exact because 16 and 9 are exactly representable squares.
* JS `%` is truncating remainder, embedded as `Int.tmod`.
* `Math.round` rounds half toward positive infinity, which is Mathlib's
  `round` (`round x = ⌊x + 1/2⌋`).
* The only transcendental computation feeding back into grid state is the
  explosion offset `(Math.round (cos angle * dist), Math.round (sin angle * dist))`
  in `spawnAppleExplosion`; it is factored into `explosionOffset` over `ℝ`,
  and the remaining (discrete) part of the function takes the offset list as
  an argument.  The rocket's initial velocity and random steering are
  likewise real-valued; they are supplied as oracle inputs since no verified
  claim depends on their numeric values.
-/

set_option maxRecDepth 8000

namespace VibeSnake

/-- A grid cell or integer vector, `script.js` `{x, y}` objects.
Equality is component-wise (`coordEq`, line 83). -/
structure Cell where
  x : ℤ
  y : ℤ
deriving DecidableEq, Repr

instance : Inhabited Cell := ⟨⟨0, 0⟩⟩

/-- Wall mode, `script.js` line 70: `walls = "solid"` or `"wrap"`. -/
inductive Walls where
  | solid
  | wrap
deriving DecidableEq, Repr

/-- `boardSizePx = 600` (line 20). -/
def boardSizePx : ℤ := 600

/-- `cellSizePx = 24` (line 21). -/
def cellSizePx : ℤ := 24

/-- `gridWidth = Math.floor(boardSizePx / cellSizePx)` (line 22); equals 25. -/
def gridWidth : ℤ := boardSizePx / cellSizePx

/-- `gridHeight = Math.floor(boardSizePx / cellSizePx)` (line 23); equals 25. -/
def gridHeight : ℤ := boardSizePx / cellSizePx

/-- The active rocket entity, `script.js` line 65:
`{ xPx, yPx, vx, vy, untilMs, dropsLeft, nextDropAt, lastMs }`. -/
structure Rocket where
  xPx : ℚ
  yPx : ℚ
  vx : ℚ
  vy : ℚ
  untilMs : ℚ
  dropsLeft : ℕ
  nextDropAt : ℚ
  lastMs : ℚ
deriving DecidableEq, Repr

/-- The mutable module state of `script.js` (lines 54-72) that the
simulation tick reads and writes.  Rendering-only and input-only state
(canvas, patterns, touch bookkeeping, `paused`, `lastTick`) is omitted:
the embedded `tick` models the simulation step that fires once the
`running`/`paused`/`elapsed` gates (lines 553-560) have passed. -/
structure GameState where
  snake : List Cell
  direction : Cell
  pendingDirection : Cell
  apples : List Cell
  bomb : Option Cell
  magnet : Option Cell
  magnetActive : Bool
  magnetUntil : ℚ
  rocket : Option Cell
  rocketActive : Option Rocket
  score : ℤ
  best : ℤ
  running : Bool
  walls : Walls
deriving DecidableEq, Repr

instance : Inhabited GameState :=
  ⟨⟨[], ⟨1, 0⟩, ⟨1, 0⟩, [], none, none, false, 0, none, none, 0, 0, false, Walls.solid⟩⟩

/-- Squared Euclidean distance between two cells.  Stands for the exact
comparisons done with `Math.hypot` in the source (see file header). -/
def dist2 (a b : Cell) : ℤ :=
  (a.x - b.x) ^ 2 + (a.y - b.y) ^ 2

/-- `isCellOccupiedBySnake` (lines 96-98): some snake segment equals `p`. -/
def isCellOccupiedBySnake (snake : List Cell) (p : Cell) : Bool :=
  snake.contains p

/-- `isCellOccupied` (lines 100-107): snake segment, bomb, magnet pickup,
rocket pickup, or apple at `p`. -/
def isCellOccupied (s : GameState) (p : Cell) : Bool :=
  isCellOccupiedBySnake s.snake p || s.bomb == some p || s.magnet == some p ||
    s.rocket == some p || s.apples.contains p

/-- One random cell draw, `{x: Math.floor(Math.random()*gridWidth), y: ...}`
(lines 111-114), from a pair of random numbers in `[0,1)`. -/
def randCell (r : ℚ × ℚ) : Cell :=
  ⟨⌊r.1 * (gridWidth : ℚ)⌋, ⌊r.2 * (gridHeight : ℚ)⌋⟩

/-- `randomEmptyCellTotal` (lines 109-117): unbounded rejection sampling,
`while (true)` drawing random cells until one is unoccupied.  The source
loop has no exit other than finding a free cell; `fuel` bounds how many
iterations we observe, and `none` means the loop is still running after
`fuel` draws (so `= none` for every fuel is divergence). -/
def randomEmptyCellTotal (occ : Cell → Bool) (stream : ℕ → ℚ × ℚ) : ℕ → Option Cell
  | 0 => none
  | fuel + 1 =>
    let c := randCell (stream 0)
    if occ c then randomEmptyCellTotal occ (fun n => stream (n + 1)) fuel else some c

/-- `gameOver` (lines 162-172): stop running; update the best score when the
current score exceeds it.  (Overlay text and the beep are external.) -/
def gameOver (s : GameState) : GameState :=
  { s with running := false, best := if s.best < s.score then s.score else s.best }

/-- Wrap step used at lines 568-571 and 197-199 and 277-280:
`(v + gridWidth) % gridWidth` in each coordinate when walls are `wrap`,
identity when `solid`.  JS `%` is `Int.tmod`. -/
def wrapCell (walls : Walls) (p : Cell) : Cell :=
  match walls with
  | Walls.wrap => ⟨(p.x + gridWidth).tmod gridWidth, (p.y + gridHeight).tmod gridHeight⟩
  | Walls.solid => p

/-- Out-of-bounds test as written at lines 200, 281 and 574:
`x < 0 || y < 0 || x >= gridWidth || y >= gridHeight`. -/
def outOfBounds (p : Cell) : Bool :=
  decide (p.x < 0) || decide (p.y < 0) || decide (gridWidth ≤ p.x) || decide (gridHeight ≤ p.y)

/-- `maybeSpawnBomb` (lines 174-185).  `roll` is the `Math.random()` result;
the candidate position search takes its own random stream and fuel.
Returns `none` when the free-cell search diverges past its fuel. -/
def maybeSpawnBomb (s : GameState) (roll : ℚ) (stream : ℕ → ℚ × ℚ) (fuel : ℕ) :
    Option GameState :=
  if s.bomb.isSome then some s
  else if roll < 2 / 100 ∧ 1 ≤ s.apples.length then
    (randomEmptyCellTotal (isCellOccupied s) stream fuel).map fun pos =>
      if 16 < dist2 pos s.snake.headI then { s with bomb := some pos } else s
  else some s

/-- `maybeSpawnMagnet` (lines 388-397): skipped when a magnet pickup exists
or the magnet effect is active; probability 0.015; same distance rule. -/
def maybeSpawnMagnet (s : GameState) (roll : ℚ) (stream : ℕ → ℚ × ℚ) (fuel : ℕ) :
    Option GameState :=
  if s.magnet.isSome ∨ s.magnetActive = true then some s
  else if roll < 15 / 1000 then
    (randomEmptyCellTotal (isCellOccupied s) stream fuel).map fun pos =>
      if 16 < dist2 pos s.snake.headI then { s with magnet := some pos } else s
  else some s

/-- `maybeSpawnRocket` (lines 285-292): skipped when a rocket pickup or an
active rocket exists; probability 0.012; same distance rule. -/
def maybeSpawnRocket (s : GameState) (roll : ℚ) (stream : ℕ → ℚ × ℚ) (fuel : ℕ) :
    Option GameState :=
  if s.rocket.isSome ∨ s.rocketActive.isSome then some s
  else if roll < 12 / 1000 then
    (randomEmptyCellTotal (isCellOccupied s) stream fuel).map fun pos =>
      if 16 < dist2 pos s.snake.headI then { s with rocket := some pos } else s
  else some s

/-- The offset of explosion candidate `i` from the impact cell
(`spawnAppleExplosion`, lines 190-195):
`angle = (i / count) * 2π + jit * 0.4`, `dist = 2 + ⌊r * radius⌋`,
offset `(round (cos angle * dist), round (sin angle * dist))`,
where `jit` and `r` are the two `Math.random()` results for candidate `i`. -/
noncomputable def explosionOffset (count radius i : ℕ) (jit r : ℚ) : ℤ × ℤ :=
  (round (Real.cos (((i : ℝ) / (count : ℝ)) * Real.pi * 2 + (jit : ℝ) * (2 / 5)) *
      (((2 + ⌊r * (radius : ℚ)⌋ : ℤ)) : ℝ)),
   round (Real.sin (((i : ℝ) / (count : ℝ)) * Real.pi * 2 + (jit : ℝ) * (2 / 5)) *
      (((2 + ⌊r * (radius : ℚ)⌋ : ℤ)) : ℝ)))

/-- Candidate filtering of `spawnAppleExplosion` (lines 196-202): each offset
is added to the origin, wrapped when walls are `wrap`, and kept only when in
bounds and not occupied.  Crucially, occupancy is tested against the state
at explosion time only - candidates are not tested against each other. -/
def explosionCandidates (s : GameState) (origin : Cell) (offsets : List (ℤ × ℤ)) :
    List Cell :=
  (offsets.map fun o => wrapCell s.walls ⟨origin.x + o.1, origin.y + o.2⟩).filter
    fun w => !outOfBounds w && !isCellOccupied s w

/-- `spawnAppleExplosion` (lines 187-207) with the candidate offsets (the
output of `explosionOffset` for each index) passed explicitly: surviving
candidates are appended to the apple list. -/
def spawnAppleExplosion (s : GameState) (origin : Cell) (offsets : List (ℤ × ℤ)) :
    GameState :=
  { s with apples := s.apples ++ explosionCandidates s origin offsets }

/-- `startRocket` (lines 208-223).  `iv` is the oracle for the random
initial velocity `(cos angle * 240, sin angle * 240)`. -/
def startRocket (cell : Cell) (nowMs : ℚ) (iv : ℚ × ℚ) : Rocket :=
  { xPx := cell.x * cellSizePx + cellSizePx / 2
    yPx := cell.y * cellSizePx + cellSizePx / 2
    vx := iv.1
    vy := iv.2
    untilMs := nowMs + 10000
    dropsLeft := 40
    nextDropAt := nowMs + 250
    lastMs := nowMs }

/-- `pixelToNearestCell` (lines 266-271): round to the nearest cell and
clamp into the grid. -/
def pixelToNearestCell (px py : ℚ) : Cell :=
  ⟨max 0 (min (gridWidth - 1) (round ((px - (cellSizePx : ℚ) / 2) / (cellSizePx : ℚ)))),
   max 0 (min (gridHeight - 1) (round ((py - (cellSizePx : ℚ) / 2) / (cellSizePx : ℚ))))⟩

/-- `jitterCell` (lines 273-283): offset each coordinate by a uniform value
in `-maxOffset..maxOffset`, wrap in wrap mode, reject out-of-bounds. -/
def jitterCell (walls : Walls) (cell : Cell) (maxOffset : ℤ) (r1 r2 : ℚ) : Option Cell :=
  let nx := cell.x + (⌊r1 * ((2 * maxOffset + 1 : ℤ) : ℚ)⌋ - maxOffset)
  let ny := cell.y + (⌊r2 * ((2 * maxOffset + 1 : ℤ) : ℚ)⌋ - maxOffset)
  let pos := wrapCell walls ⟨nx, ny⟩
  if outOfBounds pos then none else some pos

/-- The drop loop of `updateRocket` (lines 256-262): while drops remain and
the next drop is due, convert the rocket position to a cell, jitter it by
±1, and push an apple when the result is valid and unoccupied (occupancy is
re-tested against the live state, including apples just dropped).  The fuel
argument starts at `r.dropsLeft`, which bounds the loop in the source. -/
def rocketDropLoop (nowMs : ℚ) (jit : ℕ → ℚ × ℚ) :
    ℕ → GameState → Rocket → GameState × Rocket
  | 0, s, r => (s, r)
  | n + 1, s, r =>
    if 0 < r.dropsLeft ∧ r.nextDropAt ≤ nowMs then
      let cell := pixelToNearestCell r.xPx r.yPx
      let s1 :=
        match jitterCell s.walls cell 1 (jit 0).1 (jit 0).2 with
        | some drop =>
          if isCellOccupied s drop then s else { s with apples := s.apples ++ [drop] }
        | none => s
      rocketDropLoop nowMs (fun k => jit (k + 1)) n s1
        { r with dropsLeft := r.dropsLeft - 1, nextDropAt := r.nextDropAt + 250 }
    else (s, r)

/-- The motion part of `updateRocket` (lines 227-255): integrate position by
velocity times the elapsed wall-clock time, reflect at the four inset
boundaries, and optionally steer (the perturbed velocity is supplied as an
oracle `steer`, `none` when the 0.1-probability roll fails). -/
def updateRocketMoved (r0 : Rocket) (nowMs : ℚ) (steer : Option (ℚ × ℚ)) : Rocket :=
  let dt := (nowMs - r0.lastMs) / 1000
  let r1 := { r0 with lastMs := nowMs, xPx := r0.xPx + r0.vx * dt, yPx := r0.yPx + r0.vy * dt }
  let margin : ℚ := (cellSizePx : ℚ) * (2 / 5)
  let r2 := if r1.xPx < margin then { r1 with xPx := margin, vx := -r1.vx } else r1
  let r3 :=
    if (boardSizePx : ℚ) - margin < r2.xPx then
      { r2 with xPx := (boardSizePx : ℚ) - margin, vx := -r2.vx }
    else r2
  let r4 := if r3.yPx < margin then { r3 with yPx := margin, vy := -r3.vy } else r3
  let r5 :=
    if (boardSizePx : ℚ) - margin < r4.yPx then
      { r4 with yPx := (boardSizePx : ℚ) - margin, vy := -r4.vy }
    else r4
  match steer with
  | some v => { r5 with vx := v.1, vy := v.2 }
  | none => r5

/-- The tail of `updateRocket` (line 263): destroy the rocket when its
lifetime expiry has been reached, otherwise store it back. -/
def updateRocketFinish (nowMs : ℚ) (sr : GameState × Rocket) : GameState :=
  if sr.2.untilMs ≤ nowMs then { sr.1 with rocketActive := none }
  else { sr.1 with rocketActive := some sr.2 }

/-- `updateRocket` (lines 225-264): move and steer the rocket
(`updateRocketMoved`), run the drop loop, and destroy the rocket at its
expiry time. -/
def updateRocket (s : GameState) (nowMs : ℚ) (steer : Option (ℚ × ℚ))
    (jit : ℕ → ℚ × ℚ) : GameState :=
  match s.rocketActive with
  | none => s
  | some r0 =>
    updateRocketFinish nowMs
      (rocketDropLoop nowMs jit (updateRocketMoved r0 nowMs steer).dropsLeft s
        (updateRocketMoved r0 nowMs steer))

/-- The per-tick random inputs consumed by `tick`: one probability roll and
one free-cell search (stream + fuel) per spawn routine, one search for the
apple respawn, the explosion candidate offsets (see `explosionOffset`), the
rocket's oracle initial velocity, the optional steering outcome, and the
random jitters of the rocket drop loop. -/
structure TickRand where
  expOffsets : List (ℤ × ℤ)
  bombRoll : ℚ
  bombCand : ℕ → ℚ × ℚ
  bombFuel : ℕ
  magnetRoll : ℚ
  magnetCand : ℕ → ℚ × ℚ
  magnetFuel : ℕ
  rocketRoll : ℚ
  rocketCand : ℕ → ℚ × ℚ
  rocketFuel : ℕ
  respawnCand : ℕ → ℚ × ℚ
  respawnFuel : ℕ
  rocketInitVel : ℚ × ℚ
  steer : Option (ℚ × ℚ)
  dropJit : ℕ → ℚ × ℚ

/-- The new head before the collision check (lines 565-571): previous head
plus the latched direction, wrapped in wrap mode. -/
def newHeadOf (s : GameState) : Cell :=
  wrapCell s.walls ⟨s.snake.headI.x + s.pendingDirection.x, s.snake.headI.y + s.pendingDirection.y⟩

/-- The game-over condition of lines 574-576:
`(walls === "solid" && outOfBounds) || hitsSelf`. -/
def collisionCheck (s : GameState) : Bool :=
  (decide (s.walls = Walls.solid) && outOfBounds (newHeadOf s)) || s.snake.contains (newHeadOf s)

/-- Bomb pickup / apple pickup branch of `tick` (lines 584-607): on the bomb
cell, explode into apples and clear the bomb; otherwise eat an apple at the
head (removing its first occurrence and scoring 10) if there is one.  The
returned flag is `grewThisTick` as set by this branch. -/
def tickEatStep (s : GameState) (nh : Cell) (offsets : List (ℤ × ℤ)) : GameState × Bool :=
  if s.bomb = some nh then
    ({ spawnAppleExplosion s nh offsets with bomb := none }, true)
  else if nh ∈ s.apples then
    ({ s with apples := s.apples.erase nh, score := s.score + 10 }, true)
  else (s, false)

/-- Magnet pickup branch of `tick` (lines 610-617): activate the effect for
15000 ms from `now`, clear the ground item, set the grow flag. -/
def tickMagnetPickupStep (s : GameState) (nh : Cell) (now : ℚ) : GameState × Bool :=
  if s.magnet = some nh then
    ({ s with magnetActive := true, magnetUntil := now + 15000, magnet := none }, true)
  else (s, false)

/-- Rocket pickup branch of `tick` (lines 620-627): start the active rocket
at the pickup cell, clear the ground item, set the grow flag. -/
def tickRocketPickupStep (s : GameState) (nh : Cell) (now : ℚ) (iv : ℚ × ℚ) :
    GameState × Bool :=
  if s.rocket = some nh then
    ({ s with rocketActive := some (startRocket nh now iv), rocket := none }, true)
  else (s, false)

/-- The apples kept by the magnet filter at line 636: those at Euclidean
distance more than 3 (`dist2 > 9`) from the head. -/
def magnetKept (s : GameState) : List Cell :=
  s.apples.filter fun a => !decide (dist2 a s.snake.headI ≤ 9)

/-- The `taken` counter of the magnet filter (lines 635-645): how many
apples the filter removed. -/
def magnetTaken (s : GameState) : ℕ :=
  s.apples.length - (magnetKept s).length

/-- Magnet effect branch of `tick` (lines 629-653): if active and expired,
deactivate; otherwise remove every apple within Euclidean distance 3 of the
head, scoring 10 per apple and setting the grow flag when any was taken. -/
def tickMagnetEffectStep (s : GameState) (now : ℚ) : GameState × Bool :=
  if s.magnetActive then
    if s.magnetUntil ≤ now then ({ s with magnetActive := false }, false)
    else if 0 < magnetTaken s then
      ({ s with apples := magnetKept s, score := s.score + 10 * (magnetTaken s : ℤ) }, true)
    else ({ s with apples := magnetKept s }, false)
  else (s, false)

/-- The pickup-resolution phase of `tick` (lines 584-653) on the state with
the new head already inserted; returns the state and the accumulated
`grewThisTick` flag (a logical OR across the four branches). -/
def tickPickups (s1 : GameState) (nh : Cell) (now : ℚ) (tr : TickRand) : GameState × Bool :=
  (
    (tickMagnetEffectStep
      (tickRocketPickupStep
        (tickMagnetPickupStep (tickEatStep s1 nh tr.expOffsets).1 nh now).1
        nh now tr.rocketInitVel).1
      now).1,
    (tickEatStep s1 nh tr.expOffsets).2 ||
      (tickMagnetPickupStep (tickEatStep s1 nh tr.expOffsets).1 nh now).2 ||
      (tickRocketPickupStep
        (tickMagnetPickupStep (tickEatStep s1 nh tr.expOffsets).1 nh now).1
        nh now tr.rocketInitVel).2 ||
      (tickMagnetEffectStep
        (tickRocketPickupStep
          (tickMagnetPickupStep (tickEatStep s1 nh tr.expOffsets).1 nh now).1
          nh now tr.rocketInitVel).1
        now).2)

/-- Respawn step of `tick` (lines 660-663): when no apple is left, push one
at a random free cell (diverging search modelled as in
`randomEmptyCellTotal`). -/
def tickRespawnStep (s : GameState) (stream : ℕ → ℚ × ℚ) (fuel : ℕ) : Option GameState :=
  if s.apples.isEmpty then
    (randomEmptyCellTotal (isCellOccupied s) stream fuel).map fun c =>
      { s with apples := s.apples ++ [c] }
  else some s

/-- The state after the direction latch (line 563) and the head insertion
(line 581): `direction = pendingDirection` and the new head at the front. -/
def tickHeadState (s : GameState) : GameState :=
  { s with direction := s.pendingDirection, snake := newHeadOf s :: s.snake }

/-- The tail-pop decision (lines 655-658): pop the tail unless the grow
flag was set this tick. -/
def tickPopStep (pg : GameState × Bool) : GameState :=
  if pg.2 then pg.1 else { pg.1 with snake := pg.1.snake.dropLast }

/-- One simulation step of `tick` (lines 562-675), after the
`running`/`paused`/interval gates have passed: latch the direction, compute
and wrap the new head, detect collision (ending the game), insert the head,
resolve pickups and the magnet effect, pop the tail unless the grow flag was
set, respawn an apple if none is left, roll the three spawners, and update
the active rocket.  `none` means some free-cell search was still looping
after its fuel. -/
def tick (s : GameState) (now : ℚ) (tr : TickRand) : Option GameState :=
  if collisionCheck s then some (gameOver { s with direction := s.pendingDirection })
  else
    (tickRespawnStep (tickPopStep (tickPickups (tickHeadState s) (newHeadOf s) now tr))
        tr.respawnCand tr.respawnFuel).bind fun s7 =>
      (maybeSpawnBomb s7 tr.bombRoll tr.bombCand tr.bombFuel).bind fun s8 =>
        (maybeSpawnMagnet s8 tr.magnetRoll tr.magnetCand tr.magnetFuel).bind fun s9 =>
          (maybeSpawnRocket s9 tr.rocketRoll tr.rocketCand tr.rocketFuel).bind fun s10 =>
            some (updateRocket s10 now tr.steer tr.dropJit)

/-- The bomb growth source of a tick: the new head lands on the bomb
(line 585). -/
def bombFired (s : GameState) : Bool :=
  s.bomb == some (newHeadOf s)

/-- The apple growth source of a tick: no bomb at the head and an apple
there (lines 596-597). -/
def appleFired (s : GameState) : Bool :=
  !bombFired s && s.apples.contains (newHeadOf s)

/-- The magnet pickup growth source of a tick (line 610). -/
def magnetPickupFired (s : GameState) : Bool :=
  s.magnet == some (newHeadOf s)

/-- The rocket pickup growth source of a tick (line 620). -/
def rocketPickupFired (s : GameState) : Bool :=
  s.rocket == some (newHeadOf s)

/-- The magnet auto-collect growth source of a tick: re-running the pickup
phase, the magnet-effect branch takes at least one apple (lines 629-653). -/
def magnetCollectFired (s : GameState) (now : ℚ) (tr : TickRand) : Bool :=
  (tickMagnetEffectStep
    (tickRocketPickupStep
      (tickMagnetPickupStep (tickEatStep (tickHeadState s) (newHeadOf s) tr.expOffsets).1
        (newHeadOf s) now).1
      (newHeadOf s) now tr.rocketInitVel).1
    now).2

/-- Any of the five growth sources of claim C1 fired this tick. -/
def growthSourceFired (s : GameState) (now : ℚ) (tr : TickRand) : Bool :=
  bombFired s || appleFired s || magnetPickupFired s || rocketPickupFired s ||
    magnetCollectFired s now tr

/-! ### Concrete states and random inputs used by witnesses -/

/-- Trivial per-tick randomness: all spawn rolls fail (rolls of 1 are
never below the spawn probabilities), no explosion offsets, unit fuel for
the respawn search, no steering. -/
def constRand : TickRand :=
  { expOffsets := []
    bombRoll := 1
    bombCand := fun _ => (0, 0)
    bombFuel := 1
    magnetRoll := 1
    magnetCand := fun _ => (0, 0)
    magnetFuel := 1
    rocketRoll := 1
    rocketCand := fun _ => (0, 0)
    rocketFuel := 1
    respawnCand := fun _ => (0, 0)
    respawnFuel := 1
    rocketInitVel := (0, 0)
    steer := none
    dropJit := fun _ => (0, 0) }

/-- A running state about to collide with itself: the pending direction
(0,1) drives the head at (5,5) into the segment at (5,6), which also holds
the bomb pickup. -/
def c2State : GameState :=
  { snake := [⟨5, 5⟩, ⟨5, 6⟩]
    direction := ⟨1, 0⟩
    pendingDirection := ⟨0, 1⟩
    apples := [⟨0, 0⟩]
    bomb := some ⟨5, 6⟩
    magnet := none
    magnetActive := false
    magnetUntil := 0
    rocket := none
    rocketActive := none
    score := 0
    best := 0
    running := true
    walls := Walls.solid }

/-- A self-collision state whose latched direction differs from the pending
one (current (1,0), pending (0,1)). -/
def c10State : GameState :=
  { snake := [⟨5, 5⟩, ⟨5, 6⟩]
    direction := ⟨1, 0⟩
    pendingDirection := ⟨0, 1⟩
    apples := [⟨0, 0⟩]
    bomb := none
    magnet := none
    magnetActive := false
    magnetUntil := 0
    rocket := none
    rocketActive := none
    score := 7
    best := 3
    running := true
    walls := Walls.solid }

/-- The game-over state reached from `c10State`. -/
def c10Over : GameState :=
  gameOver { c10State with direction := c10State.pendingDirection }

/-- Every cell of the 25 x 25 grid. -/
def allCells : List Cell :=
  (List.range 625).map fun n => ⟨((n % 25 : ℕ) : ℤ), ((n / 25 : ℕ) : ℤ)⟩

/-- A state whose snake occupies the whole grid: the free-cell search can
never succeed here. -/
def fullState : GameState :=
  { snake := allCells
    direction := ⟨1, 0⟩
    pendingDirection := ⟨1, 0⟩
    apples := []
    bomb := none
    magnet := none
    magnetActive := false
    magnetUntil := 0
    rocket := none
    rocketActive := none
    score := 0
    best := 0
    running := true
    walls := Walls.solid }

/-- A state holding one of every pickup, with the magnet effect active and
an active rocket, for the spawn-guard witness. -/
def c6State : GameState :=
  { snake := [⟨1, 1⟩]
    direction := ⟨1, 0⟩
    pendingDirection := ⟨1, 0⟩
    apples := [⟨0, 0⟩]
    bomb := some ⟨3, 3⟩
    magnet := some ⟨4, 4⟩
    magnetActive := true
    magnetUntil := 20000
    rocket := some ⟨6, 6⟩
    rocketActive := some ⟨12, 12, 240, 0, 10000, 40, 250, 0⟩
    score := 0
    best := 0
    running := true
    walls := Walls.solid }

/-- A running state with no apples left, about to move the head to (6,5). -/
def c7State : GameState :=
  { snake := [⟨5, 5⟩, ⟨4, 5⟩]
    direction := ⟨1, 0⟩
    pendingDirection := ⟨1, 0⟩
    apples := []
    bomb := none
    magnet := none
    magnetActive := false
    magnetUntil := 0
    rocket := none
    rocketActive := none
    score := 0
    best := 0
    running := true
    walls := Walls.solid }

/-- The state produced by ticking `c7State`. -/
def c7Result : GameState :=
  (tick c7State 0 constRand).getD default

/-- The scenario of spec section 8: a length-3 snake at (5,5)-(4,5)-(3,5)
moving right onto an apple at (6,5), solid walls. -/
def c1State : GameState :=
  { snake := [⟨5, 5⟩, ⟨4, 5⟩, ⟨3, 5⟩]
    direction := ⟨1, 0⟩
    pendingDirection := ⟨1, 0⟩
    apples := [⟨6, 5⟩, ⟨0, 0⟩]
    bomb := none
    magnet := none
    magnetActive := false
    magnetUntil := 0
    rocket := none
    rocketActive := none
    score := 0
    best := 0
    running := true
    walls := Walls.solid }

/-- The state produced by ticking `c1State`. -/
def c1Result : GameState :=
  (tick c1State 0 constRand).getD default

/-- A state with the magnet effect active (until 15000) and apples at
distances 1, 3 and 5 from the head at (10,10), plus a magnet pickup at
(7,7); the magnet scenario of spec section 8. -/
def c8State : GameState :=
  { snake := [⟨10, 10⟩]
    direction := ⟨1, 0⟩
    pendingDirection := ⟨1, 0⟩
    apples := [⟨11, 10⟩, ⟨13, 10⟩, ⟨15, 10⟩]
    bomb := none
    magnet := some ⟨7, 7⟩
    magnetActive := true
    magnetUntil := 15000
    rocket := none
    rocketActive := none
    score := 0
    best := 0
    running := true
    walls := Walls.solid }

/-- Like `c8State` but with the magnet expiry already reached. -/
def c8ExpiredState : GameState :=
  { c8State with magnetUntil := 0 }

/-- A running state whose head is about to land on the bomb at (10,10). -/
def c3State : GameState :=
  { snake := [⟨9, 10⟩, ⟨8, 10⟩]
    direction := ⟨1, 0⟩
    pendingDirection := ⟨1, 0⟩
    apples := [⟨0, 0⟩]
    bomb := some ⟨10, 10⟩
    magnet := none
    magnetActive := false
    magnetUntil := 0
    rocket := none
    rocketActive := none
    score := 0
    best := 0
    running := true
    walls := Walls.solid }

/-- Angular jitters for the duplicate-producing explosion: candidate 0
jitters to angle 3/10 and candidate 1 keeps angle pi/7; both round to the
offset (2,1) at distance 2. -/
def c3Jit : ℕ → ℚ :=
  fun i => if i = 0 then 3 / 4 else 0

/-- Distance randoms 0: every explosion candidate uses distance 2. -/
def c3Dist : ℕ → ℚ :=
  fun _ => 0

/-- Randomness whose explosion offsets are generated from `c3Jit` and
`c3Dist` exactly as the source computes them. -/
noncomputable def c3Rand : TickRand :=
  { constRand with
    expOffsets := (List.range 14).map fun i => explosionOffset 14 4 i (c3Jit i) (c3Dist i) }

/-- Distance randoms 3/4: every explosion candidate uses distance
2 + ⌊3/4 * 4⌋ = 5. -/
def c4Dist : ℕ → ℚ :=
  fun _ => 3 / 4

/-- Randomness whose explosion offsets use zero jitter and distance randoms
3/4; candidate 0 then has angle 0 and offset (5,0). -/
noncomputable def c4Rand : TickRand :=
  { constRand with
    expOffsets := (List.range 14).map fun i => explosionOffset 14 4 i 0 (c4Dist i) }

/-- A wrap-mode state whose head sits at the left edge moving left, so the
pre-wrap x coordinate of the new head is -1. -/
def c9State : GameState :=
  { snake := [⟨0, 3⟩]
    direction := ⟨-1, 0⟩
    pendingDirection := ⟨-1, 0⟩
    apples := [⟨9, 9⟩]
    bomb := none
    magnet := none
    magnetActive := false
    magnetUntil := 0
    rocket := none
    rocketActive := none
    score := 0
    best := 0
    running := true
    walls := Walls.wrap }

/-! ### Basic facts about the grid and the stage functions -/

lemma gridWidth_eq : gridWidth = 25 := by decide

lemma gridHeight_eq : gridHeight = 25 := by decide

lemma tickEatStep_snake (s : GameState) (nh : Cell) (o : List (ℤ × ℤ)) :
    ((tickEatStep s nh o).1).snake = s.snake := by
  unfold tickEatStep spawnAppleExplosion
  split
  · rfl
  · split <;> rfl

lemma tickEatStep_magnet (s : GameState) (nh : Cell) (o : List (ℤ × ℤ)) :
    ((tickEatStep s nh o).1).magnet = s.magnet := by
  unfold tickEatStep spawnAppleExplosion
  split
  · rfl
  · split <;> rfl

lemma tickEatStep_rocket (s : GameState) (nh : Cell) (o : List (ℤ × ℤ)) :
    ((tickEatStep s nh o).1).rocket = s.rocket := by
  unfold tickEatStep spawnAppleExplosion
  split
  · rfl
  · split <;> rfl

lemma tickMagnetPickupStep_snake (s : GameState) (nh : Cell) (now : ℚ) :
    ((tickMagnetPickupStep s nh now).1).snake = s.snake := by
  unfold tickMagnetPickupStep
  split <;> rfl

lemma tickMagnetPickupStep_rocket (s : GameState) (nh : Cell) (now : ℚ) :
    ((tickMagnetPickupStep s nh now).1).rocket = s.rocket := by
  unfold tickMagnetPickupStep
  split <;> rfl

lemma tickRocketPickupStep_snake (s : GameState) (nh : Cell) (now : ℚ) (iv : ℚ × ℚ) :
    ((tickRocketPickupStep s nh now iv).1).snake = s.snake := by
  unfold tickRocketPickupStep
  split <;> rfl

lemma tickMagnetEffectStep_snake (s : GameState) (now : ℚ) :
    ((tickMagnetEffectStep s now).1).snake = s.snake := by
  unfold tickMagnetEffectStep
  split
  · split
    · rfl
    · split <;> rfl
  · rfl

lemma tickPickups_snake (s1 : GameState) (nh : Cell) (now : ℚ) (tr : TickRand) :
    ((tickPickups s1 nh now tr).1).snake = s1.snake := by
  unfold tickPickups
  rw [tickMagnetEffectStep_snake, tickRocketPickupStep_snake, tickMagnetPickupStep_snake,
    tickEatStep_snake]

lemma tickEatStep_flag (s : GameState) (nh : Cell) (o : List (ℤ × ℤ)) :
    (tickEatStep s nh o).2 =
      ((s.bomb == some nh) || (!(s.bomb == some nh) && s.apples.contains nh)) := by
  unfold tickEatStep
  split
  · rename_i hb
    simp [hb]
  · rename_i hb
    split
    · rename_i ha
      simp [beq_eq_false_iff_ne.mpr hb, List.contains, ha]
    · rename_i ha
      simp [beq_eq_false_iff_ne.mpr hb, List.contains, ha]

lemma tickMagnetPickupStep_flag (s : GameState) (nh : Cell) (now : ℚ) :
    (tickMagnetPickupStep s nh now).2 = (s.magnet == some nh) := by
  unfold tickMagnetPickupStep
  split
  · rename_i hm
    simp [hm]
  · rename_i hm
    simp [beq_eq_false_iff_ne.mpr hm]

lemma tickRocketPickupStep_flag (s : GameState) (nh : Cell) (now : ℚ) (iv : ℚ × ℚ) :
    (tickRocketPickupStep s nh now iv).2 = (s.rocket == some nh) := by
  unfold tickRocketPickupStep
  split
  · rename_i hr
    simp [hr]
  · rename_i hr
    simp [beq_eq_false_iff_ne.mpr hr]

/-- The accumulated grow flag of the pickup phase, started from the state
with the new head inserted, is exactly the disjunction of the five growth
sources computed from the pre-tick state. -/
lemma tickPickups_flag (s : GameState) (now : ℚ) (tr : TickRand) :
    (tickPickups (tickHeadState s) (newHeadOf s) now tr).2 = growthSourceFired s now tr := by
  have hb : (tickHeadState s).bomb = s.bomb := rfl
  have ha : (tickHeadState s).apples = s.apples := rfl
  have hm : ((tickEatStep (tickHeadState s) (newHeadOf s) tr.expOffsets).1).magnet =
      s.magnet := by
    rw [tickEatStep_magnet]; rfl
  have hr : ((tickMagnetPickupStep (tickEatStep (tickHeadState s) (newHeadOf s)
      tr.expOffsets).1 (newHeadOf s) now).1).rocket = s.rocket := by
    rw [tickMagnetPickupStep_rocket, tickEatStep_rocket]; rfl
  unfold tickPickups growthSourceFired magnetCollectFired appleFired
    magnetPickupFired rocketPickupFired bombFired
  dsimp only
  rw [tickEatStep_flag, tickMagnetPickupStep_flag, tickRocketPickupStep_flag,
    hb, ha, hm, hr, Bool.or_assoc, Bool.or_assoc, Bool.or_assoc]

lemma tickRespawnStep_apples {s s2 : GameState} {stream : ℕ → ℚ × ℚ} {fuel : ℕ}
    (h : tickRespawnStep s stream fuel = some s2) : s2.apples ≠ [] := by
  unfold tickRespawnStep at h
  split at h
  · rcases Option.map_eq_some'.mp h with ⟨c, _, hf⟩
    rw [← hf]
    simp
  · rename_i he
    cases h
    exact fun hnil => he (List.isEmpty_iff.mpr hnil)

lemma tickRespawnStep_frame {s s2 : GameState} {stream : ℕ → ℚ × ℚ} {fuel : ℕ}
    (h : tickRespawnStep s stream fuel = some s2) :
    s2.snake = s.snake ∧ s2.bomb = s.bomb ∧ s2.magnet = s.magnet ∧
      s2.magnetActive = s.magnetActive ∧ s2.rocket = s.rocket ∧
      s2.rocketActive = s.rocketActive ∧ s2.score = s.score := by
  unfold tickRespawnStep at h
  split at h
  · rcases Option.map_eq_some'.mp h with ⟨c, _, hf⟩
    cases hf
    exact ⟨rfl, rfl, rfl, rfl, rfl, rfl, rfl⟩
  · cases h
    exact ⟨rfl, rfl, rfl, rfl, rfl, rfl, rfl⟩

lemma maybeSpawnBomb_frame {s s2 : GameState} {roll : ℚ} {stream : ℕ → ℚ × ℚ} {fuel : ℕ}
    (h : maybeSpawnBomb s roll stream fuel = some s2) :
    s2.snake = s.snake ∧ s2.apples = s.apples ∧ s2.magnet = s.magnet ∧
      s2.magnetActive = s.magnetActive ∧ s2.rocket = s.rocket ∧
      s2.rocketActive = s.rocketActive ∧ s2.score = s.score := by
  unfold maybeSpawnBomb at h
  split at h
  · cases h; exact ⟨rfl, rfl, rfl, rfl, rfl, rfl, rfl⟩
  · split at h
    · rcases Option.map_eq_some'.mp h with ⟨pos, _, hf⟩
      by_cases hd : 16 < dist2 pos s.snake.headI
      · rw [if_pos hd] at hf; cases hf; exact ⟨rfl, rfl, rfl, rfl, rfl, rfl, rfl⟩
      · rw [if_neg hd] at hf; cases hf; exact ⟨rfl, rfl, rfl, rfl, rfl, rfl, rfl⟩
    · cases h; exact ⟨rfl, rfl, rfl, rfl, rfl, rfl, rfl⟩

lemma maybeSpawnMagnet_frame {s s2 : GameState} {roll : ℚ} {stream : ℕ → ℚ × ℚ} {fuel : ℕ}
    (h : maybeSpawnMagnet s roll stream fuel = some s2) :
    s2.snake = s.snake ∧ s2.apples = s.apples ∧ s2.bomb = s.bomb ∧
      s2.magnetActive = s.magnetActive ∧ s2.rocket = s.rocket ∧
      s2.rocketActive = s.rocketActive ∧ s2.score = s.score := by
  unfold maybeSpawnMagnet at h
  split at h
  · cases h; exact ⟨rfl, rfl, rfl, rfl, rfl, rfl, rfl⟩
  · split at h
    · rcases Option.map_eq_some'.mp h with ⟨pos, _, hf⟩
      by_cases hd : 16 < dist2 pos s.snake.headI
      · rw [if_pos hd] at hf; cases hf; exact ⟨rfl, rfl, rfl, rfl, rfl, rfl, rfl⟩
      · rw [if_neg hd] at hf; cases hf; exact ⟨rfl, rfl, rfl, rfl, rfl, rfl, rfl⟩
    · cases h; exact ⟨rfl, rfl, rfl, rfl, rfl, rfl, rfl⟩

lemma maybeSpawnRocket_frame {s s2 : GameState} {roll : ℚ} {stream : ℕ → ℚ × ℚ} {fuel : ℕ}
    (h : maybeSpawnRocket s roll stream fuel = some s2) :
    s2.snake = s.snake ∧ s2.apples = s.apples ∧ s2.bomb = s.bomb ∧
      s2.magnetActive = s.magnetActive ∧ s2.magnet = s.magnet ∧
      s2.rocketActive = s.rocketActive ∧ s2.score = s.score := by
  unfold maybeSpawnRocket at h
  split at h
  · cases h; exact ⟨rfl, rfl, rfl, rfl, rfl, rfl, rfl⟩
  · split at h
    · rcases Option.map_eq_some'.mp h with ⟨pos, _, hf⟩
      by_cases hd : 16 < dist2 pos s.snake.headI
      · rw [if_pos hd] at hf; cases hf; exact ⟨rfl, rfl, rfl, rfl, rfl, rfl, rfl⟩
      · rw [if_neg hd] at hf; cases hf; exact ⟨rfl, rfl, rfl, rfl, rfl, rfl, rfl⟩
    · cases h; exact ⟨rfl, rfl, rfl, rfl, rfl, rfl, rfl⟩

/-- The drop loop only ever appends apples; every other field is kept. -/
lemma rocketDropLoop_spec (nowMs : ℚ) :
    ∀ (n : ℕ) (jit : ℕ → ℚ × ℚ) (s : GameState) (r : Rocket),
      ∃ ds : List Cell,
        (rocketDropLoop nowMs jit n s r).1 = { s with apples := s.apples ++ ds } := by
  intro n
  induction n with
  | zero =>
    intro jit s r
    exact ⟨[], by simp [rocketDropLoop]⟩
  | succ n ih =>
    intro jit s r
    unfold rocketDropLoop
    split
    · rcases hj : jitterCell s.walls (pixelToNearestCell r.xPx r.yPx) 1 (jit 0).1 (jit 0).2
        with _ | drop
      · simp only [hj]
        rcases ih (fun k => jit (k + 1)) s
          { r with dropsLeft := r.dropsLeft - 1, nextDropAt := r.nextDropAt + 250 } with ⟨ds, hds⟩
        exact ⟨ds, hds⟩
      · simp only [hj]
        split
        · rcases ih (fun k => jit (k + 1)) s
            { r with dropsLeft := r.dropsLeft - 1, nextDropAt := r.nextDropAt + 250 } with ⟨ds, hds⟩
          exact ⟨ds, hds⟩
        · rcases ih (fun k => jit (k + 1)) { s with apples := s.apples ++ [drop] }
            { r with dropsLeft := r.dropsLeft - 1, nextDropAt := r.nextDropAt + 250 } with ⟨ds, hds⟩
          exact ⟨[drop] ++ ds, by rw [hds]; simp⟩
    · exact ⟨[], by simp⟩

/-- `updateRocket` only appends apples and rewrites the active-rocket slot. -/
lemma updateRocket_spec (s : GameState) (nowMs : ℚ) (steer : Option (ℚ × ℚ))
    (jit : ℕ → ℚ × ℚ) :
    ∃ (ds : List Cell) (ra : Option Rocket),
      updateRocket s nowMs steer jit =
        { s with apples := s.apples ++ ds, rocketActive := ra } := by
  unfold updateRocket
  rcases hr : s.rocketActive with _ | r0
  · refine ⟨[], s.rocketActive, ?_⟩
    rw [hr]
    simp only [List.append_nil]
    rw [← hr]
  · rcases rocketDropLoop_spec nowMs (updateRocketMoved r0 nowMs steer).dropsLeft jit s
      (updateRocketMoved r0 nowMs steer) with ⟨ds, hds⟩
    have hfin : ∃ ra, updateRocketFinish nowMs
        (rocketDropLoop nowMs jit (updateRocketMoved r0 nowMs steer).dropsLeft s
          (updateRocketMoved r0 nowMs steer)) =
        { s with apples := s.apples ++ ds, rocketActive := ra } := by
      unfold updateRocketFinish
      split
      · exact ⟨none, by rw [hds]⟩
      · exact ⟨some (rocketDropLoop nowMs jit (updateRocketMoved r0 nowMs steer).dropsLeft s
          (updateRocketMoved r0 nowMs steer)).2, by rw [hds]⟩
    rcases hfin with ⟨ra, hra⟩
    exact ⟨ds, ra, hra⟩

/-- On a collision, `tick` returns the `gameOver` state with only the
direction latched. -/
lemma tick_collision_eq (s : GameState) (now : ℚ) (tr : TickRand)
    (h : collisionCheck s = true) :
    tick s now tr = some (gameOver { s with direction := s.pendingDirection }) := by
  unfold tick
  rw [if_pos h]

/-- Decomposition of a completed non-collision tick into its pipeline
stages. -/
lemma tick_no_collision_decompose {s s2 : GameState} {now : ℚ} {tr : TickRand}
    (hc : collisionCheck s = false) (h : tick s now tr = some s2) :
    ∃ s7 s8 s9 s10,
      tickRespawnStep (tickPopStep (tickPickups (tickHeadState s) (newHeadOf s) now tr))
          tr.respawnCand tr.respawnFuel = some s7 ∧
      maybeSpawnBomb s7 tr.bombRoll tr.bombCand tr.bombFuel = some s8 ∧
      maybeSpawnMagnet s8 tr.magnetRoll tr.magnetCand tr.magnetFuel = some s9 ∧
      maybeSpawnRocket s9 tr.rocketRoll tr.rocketCand tr.rocketFuel = some s10 ∧
      s2 = updateRocket s10 now tr.steer tr.dropJit := by
  unfold tick at h
  rw [hc] at h
  simp only [Bool.false_eq_true, if_false] at h
  rcases Option.bind_eq_some.mp h with ⟨s7, h7, h'⟩
  rcases Option.bind_eq_some.mp h' with ⟨s8, h8, h''⟩
  rcases Option.bind_eq_some.mp h'' with ⟨s9, h9, h'''⟩
  rcases Option.bind_eq_some.mp h''' with ⟨s10, h10, hfin⟩
  cases hfin
  exact ⟨s7, s8, s9, s10, h7, h8, h9, h10, rfl⟩

/-! ### Evaluation of explosion offsets and no-op stage lemmas -/

lemma round_eq_of_bounds (x : ℝ) (n : ℤ) (h1 : (n : ℝ) - 1 / 2 ≤ x)
    (h2 : x < (n : ℝ) + 1 / 2) : round x = n := by
  rw [round_eq]
  rw [Int.floor_eq_iff]
  constructor
  · linarith
  · linarith

/-- Evaluating one explosion offset, given the angle, the distance, and
rounding bounds for both trigonometric products. -/
lemma explosionOffset_eval (count radius i : ℕ) (jit r : ℚ) (θ : ℝ) (d n m : ℤ)
    (hθ : ((i : ℝ) / (count : ℝ)) * Real.pi * 2 + (jit : ℝ) * (2 / 5) = θ)
    (hd : (2 + ⌊r * (radius : ℚ)⌋ : ℤ) = d)
    (hc1 : (n : ℝ) - 1 / 2 ≤ Real.cos θ * d) (hc2 : Real.cos θ * d < (n : ℝ) + 1 / 2)
    (hs1 : (m : ℝ) - 1 / 2 ≤ Real.sin θ * d) (hs2 : Real.sin θ * d < (m : ℝ) + 1 / 2) :
    explosionOffset count radius i jit r = (n, m) := by
  unfold explosionOffset
  rw [hθ, hd, Prod.mk.injEq]
  exact ⟨round_eq_of_bounds _ _ hc1 hc2, round_eq_of_bounds _ _ hs1 hs2⟩

/-- Explosion candidate 0 of `c3Rand`: angle 3/10 (jitter 3/4), distance 2,
offset (2,1). -/
lemma c3_offset_0 : explosionOffset 14 4 0 (3 / 4) 0 = (2, 1) := by
  have hcu : Real.cos (3 / 10 : ℝ) ≤ 1 := Real.cos_le_one _
  have hcl : 1 - (3 / 10 : ℝ) ^ 2 / 2 ≤ Real.cos (3 / 10 : ℝ) :=
    Real.one_sub_sq_div_two_le_cos
  have hsu : Real.sin (3 / 10 : ℝ) < 3 / 10 := Real.sin_lt (by norm_num)
  have hsl : (3 / 10 : ℝ) - (3 / 10 : ℝ) ^ 3 / 4 < Real.sin (3 / 10 : ℝ) :=
    Real.sin_gt_sub_cube (by norm_num) (by norm_num)
  refine explosionOffset_eval 14 4 0 (3 / 4) 0 (3 / 10) 2 2 1 ?_ ?_ ?_ ?_ ?_ ?_
  · push_cast
    ring_nf
  · norm_num
  · push_cast
    nlinarith
  · push_cast
    nlinarith
  · push_cast
    nlinarith
  · push_cast
    nlinarith

/-- Explosion candidate 1 of `c3Rand`: angle pi/7 (no jitter), distance 2,
offset (2,1) as well. -/
lemma c3_offset_1 : explosionOffset 14 4 1 0 0 = (2, 1) := by
  have hp1 : (3.14 : ℝ) < Real.pi := Real.pi_gt_d2
  have hp2 : Real.pi < (3.15 : ℝ) := Real.pi_lt_d2
  have ha1 : (0.448 : ℝ) < Real.pi / 7 := by linarith
  have ha2 : Real.pi / 7 < (0.45 : ℝ) := by linarith
  have hcu : Real.cos (Real.pi / 7) ≤ 1 := Real.cos_le_one _
  have hcl : 1 - (Real.pi / 7) ^ 2 / 2 ≤ Real.cos (Real.pi / 7) :=
    Real.one_sub_sq_div_two_le_cos
  have hsq : (Real.pi / 7) ^ 2 < (0.45 : ℝ) ^ 2 := by nlinarith
  have hcube : (Real.pi / 7) ^ 3 < (0.45 : ℝ) ^ 3 := by nlinarith
  have hsu : Real.sin (Real.pi / 7) < Real.pi / 7 := Real.sin_lt (by linarith)
  have hsl : Real.pi / 7 - (Real.pi / 7) ^ 3 / 4 < Real.sin (Real.pi / 7) :=
    Real.sin_gt_sub_cube (by linarith) (by linarith)
  refine explosionOffset_eval 14 4 1 0 0 (Real.pi / 7) 2 2 1 ?_ ?_ ?_ ?_ ?_ ?_
  · push_cast
    ring
  · norm_num
  · push_cast
    nlinarith
  · push_cast
    nlinarith
  · push_cast
    nlinarith
  · push_cast
    nlinarith

/-- Explosion candidate 0 of `c4Rand`: angle 0, distance 2 + ⌊3/4 * 4⌋ = 5,
offset (5,0) - straight-line distance 5 from the impact cell. -/
lemma c4_offset_0 : explosionOffset 14 4 0 0 (3 / 4) = (5, 0) := by
  refine explosionOffset_eval 14 4 0 0 (3 / 4) 0 5 5 0 ?_ ?_ ?_ ?_ ?_ ?_
  · push_cast
    ring_nf
  · norm_num
  · rw [Real.cos_zero]
    norm_num
  · rw [Real.cos_zero]
    norm_num
  · rw [Real.sin_zero]
    norm_num
  · rw [Real.sin_zero]
    norm_num

lemma tickMagnetPickupStep_no (s : GameState) (nh : Cell) (now : ℚ)
    (h : ¬ s.magnet = some nh) : tickMagnetPickupStep s nh now = (s, false) := by
  unfold tickMagnetPickupStep
  rw [if_neg h]

lemma tickRocketPickupStep_no (s : GameState) (nh : Cell) (now : ℚ) (iv : ℚ × ℚ)
    (h : ¬ s.rocket = some nh) : tickRocketPickupStep s nh now iv = (s, false) := by
  unfold tickRocketPickupStep
  rw [if_neg h]

lemma tickMagnetEffectStep_no (s : GameState) (now : ℚ) (h : s.magnetActive = false) :
    tickMagnetEffectStep s now = (s, false) := by
  unfold tickMagnetEffectStep
  rw [h]
  simp

lemma tickEatStep_bomb_case (s : GameState) (nh : Cell) (o : List (ℤ × ℤ))
    (h : s.bomb = some nh) :
    tickEatStep s nh o = ({ spawnAppleExplosion s nh o with bomb := none }, true) := by
  unfold tickEatStep
  rw [if_pos h]

lemma tickPopStep_keep (pg : GameState × Bool) (h : pg.2 = true) : tickPopStep pg = pg.1 := by
  unfold tickPopStep
  rw [if_pos h]

lemma tickRespawnStep_no (s : GameState) (stream : ℕ → ℚ × ℚ) (fuel : ℕ)
    (h : s.apples ≠ []) : tickRespawnStep s stream fuel = some s := by
  unfold tickRespawnStep
  rw [if_neg fun hie => h (List.isEmpty_iff.mp hie)]

lemma maybeSpawnBomb_no (s : GameState) (roll : ℚ) (stream : ℕ → ℚ × ℚ) (fuel : ℕ)
    (h : ¬ roll < 2 / 100) : maybeSpawnBomb s roll stream fuel = some s := by
  unfold maybeSpawnBomb
  split
  · rfl
  · rw [if_neg fun hab => h hab.1]

lemma maybeSpawnMagnet_no (s : GameState) (roll : ℚ) (stream : ℕ → ℚ × ℚ) (fuel : ℕ)
    (h : ¬ roll < 15 / 1000) : maybeSpawnMagnet s roll stream fuel = some s := by
  unfold maybeSpawnMagnet
  by_cases hg : s.magnet.isSome = true ∨ s.magnetActive = true
  · rw [if_pos hg]
  · rw [if_neg hg, if_neg h]

lemma maybeSpawnRocket_no (s : GameState) (roll : ℚ) (stream : ℕ → ℚ × ℚ) (fuel : ℕ)
    (h : ¬ roll < 12 / 1000) : maybeSpawnRocket s roll stream fuel = some s := by
  unfold maybeSpawnRocket
  by_cases hg : s.rocket.isSome = true ∨ s.rocketActive.isSome = true
  · rw [if_pos hg]
  · rw [if_neg hg, if_neg h]

lemma updateRocket_none (s : GameState) (nowMs : ℚ) (steer : Option (ℚ × ℚ))
    (jit : ℕ → ℚ × ℚ) (h : s.rocketActive = none) : updateRocket s nowMs steer jit = s := by
  unfold updateRocket
  rw [h]

/-- When no spawn roll passes, the respawn is not needed and no rocket is
active, a non-collision tick returns exactly the post-pop state. -/
lemma tick_eval (s : GameState) (now : ℚ) (tr : TickRand)
    (hc : collisionCheck s = false)
    (hA : (tickPopStep (tickPickups (tickHeadState s) (newHeadOf s) now tr)).apples ≠ [])
    (hb : ¬ tr.bombRoll < 2 / 100) (hm : ¬ tr.magnetRoll < 15 / 1000)
    (hr : ¬ tr.rocketRoll < 12 / 1000)
    (hra : (tickPopStep (tickPickups (tickHeadState s) (newHeadOf s) now tr)).rocketActive
      = none) :
    tick s now tr =
      some (tickPopStep (tickPickups (tickHeadState s) (newHeadOf s) now tr)) := by
  unfold tick
  rw [hc]
  simp only [Bool.false_eq_true, if_false]
  rw [tickRespawnStep_no _ _ _ hA, Option.some_bind, maybeSpawnBomb_no _ _ _ _ hb,
    Option.some_bind, maybeSpawnMagnet_no _ _ _ _ hm, Option.some_bind,
    maybeSpawnRocket_no _ _ _ _ hr, Option.some_bind,
    updateRocket_none _ _ _ _ hra]

/-- Rounding `x * d` for `|x| ≤ 1` and `0 ≤ d` stays within `[-d, d]`:
candidate offsets never exceed the drawn distance in absolute value. -/
lemma abs_round_mul_le (x : ℝ) (hx1 : -1 ≤ x) (hx2 : x ≤ 1) (d : ℤ) (hd : 0 ≤ d) :
    |round (x * (d : ℝ))| ≤ d := by
  have hd2 : (0 : ℝ) ≤ (d : ℝ) := by exact_mod_cast hd
  have h1 : x * (d : ℝ) ≤ (d : ℝ) := by nlinarith
  have h2 : -((d : ℝ)) ≤ x * (d : ℝ) := by nlinarith
  rw [abs_le]
  constructor
  · rw [round_eq]
    apply Int.le_floor.mpr
    push_cast
    linarith
  · rw [round_eq]
    have h3 : (x * (d : ℝ) + 1 / 2) < ((d + 1 : ℤ) : ℝ) := by
      push_cast
      linarith
    have h4 := Int.floor_lt.mpr h3
    omega

/-- The drop loop of `updateRocket` preserves distinctness of apples: each
drop is only pushed when its cell is not yet occupied, and occupancy
includes the live apple list. -/
lemma rocketDropLoop_nodup (nowMs : ℚ) :
    ∀ (n : ℕ) (jit : ℕ → ℚ × ℚ) (s : GameState) (r : Rocket),
      s.apples.Nodup → ((rocketDropLoop nowMs jit n s r).1).apples.Nodup := by
  intro n
  induction n with
  | zero =>
    intro jit s r h
    exact h
  | succ n ih =>
    intro jit s r h
    unfold rocketDropLoop
    split
    · rcases hj : jitterCell s.walls (pixelToNearestCell r.xPx r.yPx) 1 (jit 0).1 (jit 0).2
        with _ | drop
      · simp only [hj]
        exact ih _ _ _ h
      · simp only [hj]
        split
        · exact ih _ _ _ h
        · rename_i hocc
          apply ih
          dsimp only
          rw [List.nodup_append]
          refine ⟨h, List.nodup_singleton _, ?_⟩
          intro a ha hb
          rw [List.mem_singleton] at hb
          subst hb
          refine hocc (by simp [isCellOccupied, List.contains, List.elem_iff]; exact Or.inr ha)
    · exact h

/-! ### Claim theorems -/

/-- C9: for every tick taken in wrap wall mode with an axis-aligned unit
pending direction, if the previous head is in bounds then the new head
after wrapping is also in bounds (0 ≤ x < width, 0 ≤ y < height),
including when a pre-wrap coordinate is -1. -/
theorem wrap_head_in_bounds (s : GameState) (hw : s.walls = Walls.wrap)
    (hd : s.pendingDirection = ⟨1, 0⟩ ∨ s.pendingDirection = ⟨-1, 0⟩ ∨
      s.pendingDirection = ⟨0, 1⟩ ∨ s.pendingDirection = ⟨0, -1⟩)
    (hx0 : 0 ≤ s.snake.headI.x) (hx1 : s.snake.headI.x < gridWidth)
    (hy0 : 0 ≤ s.snake.headI.y) (hy1 : s.snake.headI.y < gridHeight) :
    outOfBounds (newHeadOf s) = false := by
  have hbw : (0 : ℤ) < gridWidth := by rw [gridWidth_eq]; norm_num
  have hbh : (0 : ℤ) < gridHeight := by rw [gridHeight_eq]; norm_num
  rw [gridWidth_eq] at hx1
  rw [gridHeight_eq] at hy1
  unfold newHeadOf wrapCell outOfBounds
  rw [hw]
  rcases hd with hd | hd | hd | hd <;> rw [hd] <;> dsimp only <;>
    simp only [Bool.or_eq_false_iff, decide_eq_false_iff_not, not_lt, not_le] <;>
    exact ⟨⟨⟨Int.tmod_nonneg _ (by rw [gridWidth_eq]; omega),
      Int.tmod_nonneg _ (by rw [gridHeight_eq]; omega)⟩,
      Int.tmod_lt_of_pos _ hbw⟩, Int.tmod_lt_of_pos _ hbh⟩

/-- C9 witness: from head (0,3) moving left in wrap mode (pre-wrap x = -1)
the wrapped head is in bounds. -/
theorem wrap_head_in_bounds_witness : outOfBounds (newHeadOf c9State) = false :=
  wrap_head_in_bounds c9State (by decide) (Or.inr (Or.inl (by decide)))
    (by decide) (by decide) (by decide) (by decide)

/-- C2: when the wall mode is solid and the new head is out of bounds, or
the new head hits the snake, the tick transitions to game-over
(`running = false`) and skips the rest of the tick: no head insertion, no
pickup resolution, no spawns - snake, apples, bomb, magnet, rocket, active
rocket and score are all left unchanged, even if the colliding cell also
holds a pickup. -/
theorem collision_game_over_skips (s : GameState) (now : ℚ) (tr : TickRand)
    (h : collisionCheck s = true) :
    ∃ s2, tick s now tr = some s2 ∧ s2.running = false ∧ s2.snake = s.snake ∧
      s2.apples = s.apples ∧ s2.bomb = s.bomb ∧ s2.magnet = s.magnet ∧
      s2.magnetActive = s.magnetActive ∧ s2.rocket = s.rocket ∧
      s2.rocketActive = s.rocketActive ∧ s2.score = s.score :=
  ⟨gameOver { s with direction := s.pendingDirection }, tick_collision_eq s now tr h,
    rfl, rfl, rfl, rfl, rfl, rfl, rfl, rfl, rfl⟩

/-- C2 witness: the self-collision in `c2State`, whose colliding cell also
holds the bomb pickup. -/
theorem collision_game_over_skips_witness :
    ∃ s2, tick c2State 0 constRand = some s2 ∧ s2.running = false ∧ s2.snake = c2State.snake ∧
      s2.apples = c2State.apples ∧ s2.bomb = c2State.bomb ∧ s2.magnet = c2State.magnet ∧
      s2.magnetActive = c2State.magnetActive ∧ s2.rocket = c2State.rocket ∧
      s2.rocketActive = c2State.rocketActive ∧ s2.score = c2State.score :=
  collision_game_over_skips c2State 0 constRand (by decide)

/-- C10 counterexample: on the game-over tick from `c10State` the latched
direction changes (the direction latch at line 563 runs before the
collision check), so the claim that only the running flag and the best
score change is false as stated. -/
theorem game_over_tick_changes_direction :
    tick c10State 0 constRand = some c10Over ∧ c10Over.running = false ∧
      ¬ c10Over.direction = c10State.direction := by
  refine ⟨?_, by decide, by decide⟩
  exact tick_collision_eq c10State 0 constRand (by decide)

/-- C10 amended: on a game-over tick the snake, apples, score, bomb, magnet
pickup and effect state, rocket pickup and active rocket, pending direction
and walls are unchanged; the changes are exactly: running becomes false,
the best score becomes the maximum of itself and the score, and the
current direction is latched to the pending direction. -/
theorem game_over_frame (s : GameState) (now : ℚ) (tr : TickRand)
    (h : collisionCheck s = true) :
    ∀ s2, tick s now tr = some s2 →
      s2.snake = s.snake ∧ s2.apples = s.apples ∧ s2.score = s.score ∧
      s2.bomb = s.bomb ∧ s2.magnet = s.magnet ∧ s2.magnetActive = s.magnetActive ∧
      s2.magnetUntil = s.magnetUntil ∧ s2.rocket = s.rocket ∧
      s2.rocketActive = s.rocketActive ∧ s2.pendingDirection = s.pendingDirection ∧
      s2.walls = s.walls ∧ s2.direction = s.pendingDirection ∧ s2.running = false ∧
      s2.best = (if s.best < s.score then s.score else s.best) := by
  intro s2 h2
  rw [tick_collision_eq s now tr h] at h2
  cases h2
  exact ⟨rfl, rfl, rfl, rfl, rfl, rfl, rfl, rfl, rfl, rfl, rfl, rfl, rfl, rfl⟩

/-- C10 amended witness: the frame conditions evaluated on the game-over
tick from `c10State` (whose score 7 exceeds the prior best 3). -/
theorem game_over_frame_witness :
    c10Over.snake = c10State.snake ∧ c10Over.apples = c10State.apples ∧
      c10Over.score = c10State.score ∧ c10Over.bomb = c10State.bomb ∧
      c10Over.magnet = c10State.magnet ∧ c10Over.magnetActive = c10State.magnetActive ∧
      c10Over.magnetUntil = c10State.magnetUntil ∧ c10Over.rocket = c10State.rocket ∧
      c10Over.rocketActive = c10State.rocketActive ∧
      c10Over.pendingDirection = c10State.pendingDirection ∧
      c10Over.walls = c10State.walls ∧ c10Over.direction = c10State.pendingDirection ∧
      c10Over.running = false ∧
      c10Over.best = (if c10State.best < c10State.score then c10State.score else c10State.best) :=
  game_over_frame c10State 0 constRand (by decide) c10Over
    (tick_collision_eq c10State 0 constRand (by decide))

/-- C5: the free-cell search `randomEmptyCellTotal` has no sentinel result.
Whenever every sampled candidate is occupied - in particular on a fully
occupied grid, where every candidate is - the rejection-sampling loop never
returns, no matter how many iterations are run: the code livelocks instead
of returning a "no free cell" sentinel for callers to skip on. -/
theorem randomEmptyCellTotal_no_sentinel (occ : Cell → Bool) :
    ∀ (fuel : ℕ) (stream : ℕ → ℚ × ℚ), (∀ n, occ (randCell (stream n)) = true) →
      randomEmptyCellTotal occ stream fuel = none := by
  intro fuel
  induction fuel with
  | zero =>
    intro stream h
    rfl
  | succ n ih =>
    intro stream h
    unfold randomEmptyCellTotal
    rw [if_pos (h 0)]
    exact ih (fun k => stream (k + 1)) fun k => h (k + 1)

/-- C5 witness: on `fullState` (snake covering all 625 cells) the search
is still looping after 5 iterations of constant sampling. -/
theorem randomEmptyCellTotal_no_sentinel_witness :
    randomEmptyCellTotal (isCellOccupied fullState) (fun _ => (0, 0)) 5 = none :=
  randomEmptyCellTotal_no_sentinel (isCellOccupied fullState) 5 (fun _ => (0, 0))
    fun _ => (by with_unfolding_all decide :
      isCellOccupied fullState (randCell (0, 0)) = true)

/-- C6: the spawners preserve single instances.  A present bomb makes
`maybeSpawnBomb` a no-op; a present magnet pickup or an active magnet
effect makes `maybeSpawnMagnet` a no-op; a present rocket pickup or an
active rocket makes `maybeSpawnRocket` a no-op.  Together with the single
optional slots of the state (at most one bomb, magnet pickup, rocket pickup
and active rocket by representation), at most one of each ever exists. -/
theorem single_instance_guards (s : GameState) (roll : ℚ) (stream : ℕ → ℚ × ℚ) (fuel : ℕ) :
    (s.bomb.isSome = true → maybeSpawnBomb s roll stream fuel = some s) ∧
    ((s.magnet.isSome = true ∨ s.magnetActive = true) →
      maybeSpawnMagnet s roll stream fuel = some s) ∧
    ((s.rocket.isSome = true ∨ s.rocketActive.isSome = true) →
      maybeSpawnRocket s roll stream fuel = some s) := by
  refine ⟨fun h => ?_, fun h => ?_, fun h => ?_⟩
  · unfold maybeSpawnBomb
    rw [if_pos h]
  · unfold maybeSpawnMagnet
    rw [if_pos h]
  · unfold maybeSpawnRocket
    rw [if_pos h]

/-- C6 witness: on `c6State` (bomb, magnet pickup + active effect, rocket
pickup + active rocket all present) all three spawners are no-ops even
though the roll of 0 would pass every probability check. -/
theorem single_instance_guards_witness :
    maybeSpawnBomb c6State 0 (fun _ => (0, 0)) 1 = some c6State ∧
    maybeSpawnMagnet c6State 0 (fun _ => (0, 0)) 1 = some c6State ∧
    maybeSpawnRocket c6State 0 (fun _ => (0, 0)) 1 = some c6State :=
  ⟨(single_instance_guards c6State 0 (fun _ => (0, 0)) 1).1 (by decide),
    (single_instance_guards c6State 0 (fun _ => (0, 0)) 1).2.1 (Or.inl (by decide)),
    (single_instance_guards c6State 0 (fun _ => (0, 0)) 1).2.2 (Or.inl (by decide))⟩

/-- C7: every completed tick that did not transition to game-over leaves a
non-empty apple set: if all apples were consumed, the respawn step placed
one, and the later steps only preserve or add apples. -/
theorem tick_apples_nonempty (s : GameState) (now : ℚ) (tr : TickRand) (s2 : GameState)
    (hc : collisionCheck s = false) (h : tick s now tr = some s2) :
    s2.apples ≠ [] := by
  rcases tick_no_collision_decompose hc h with ⟨s7, s8, s9, s10, h7, h8, h9, h10, hfin⟩
  rcases updateRocket_spec s10 now tr.steer tr.dropJit with ⟨ds, ra, hup⟩
  rw [hfin, hup]
  dsimp only
  rw [(maybeSpawnRocket_frame h10).2.1, (maybeSpawnMagnet_frame h9).2.1,
    (maybeSpawnBomb_frame h8).2.1]
  intro hcon
  exact tickRespawnStep_apples h7 (List.append_eq_nil.mp hcon).1

/-- C7 witness: ticking `c7State` (no apples) respawns one apple. -/
theorem tick_apples_nonempty_witness : c7Result.apples ≠ [] :=
  tick_apples_nonempty c7State 0 constRand c7Result (by decide)
    (by with_unfolding_all decide)

/-- C1: every tick that completes without a game-over transition changes
the snake length by exactly the growth flag: unchanged when no growth
source (bomb, apple, magnet pickup, rocket pickup, magnet auto-collect)
fired, and plus exactly one when any number of them fired - growth is one
per-tick boolean suppressing a single tail pop, never a count. -/
theorem tick_length_capped_growth (s : GameState) (now : ℚ) (tr : TickRand) (s2 : GameState)
    (hc : collisionCheck s = false) (h : tick s now tr = some s2) :
    s2.snake.length =
      s.snake.length + (if growthSourceFired s now tr = true then 1 else 0) := by
  rcases tick_no_collision_decompose hc h with ⟨s7, s8, s9, s10, h7, h8, h9, h10, hfin⟩
  rcases updateRocket_spec s10 now tr.steer tr.dropJit with ⟨ds, ra, hup⟩
  rw [hfin, hup]
  dsimp only
  rw [(maybeSpawnRocket_frame h10).1, (maybeSpawnMagnet_frame h9).1,
    (maybeSpawnBomb_frame h8).1, (tickRespawnStep_frame h7).1]
  unfold tickPopStep
  rw [tickPickups_flag]
  by_cases hg : growthSourceFired s now tr = true
  · rw [if_pos hg, if_pos hg, tickPickups_snake]
    show (newHeadOf s :: s.snake).length = s.snake.length + 1
    simp
  · rw [if_neg hg, if_neg hg]
    dsimp only
    rw [tickPickups_snake]
    show (newHeadOf s :: s.snake).dropLast.length = s.snake.length + 0
    simp

/-- C1 witness: the apple-eating scenario of spec section 8 grows the
length-3 snake in `c1State` to length 4 (one growth source fired). -/
theorem tick_length_capped_growth_witness :
    c1Result.snake.length =
      c1State.snake.length + (if growthSourceFired c1State 0 constRand = true then 1 else 0) :=
  tick_length_capped_growth c1State 0 constRand c1Result (by decide)
    (by with_unfolding_all decide)

/-- C8: landing on the magnet pickup removes the ground item, activates the
effect with expiry exactly 15000 ms after the tick timestamp, and sets the
grow flag; while the effect is active before its expiry, exactly the apples
within Euclidean distance 3 of the head are removed, scoring 10 per removed
apple, and the grow flag is set exactly when at least one was removed; once
the expiry timestamp is reached, the effect deactivates and no apples are
collected that tick. -/
theorem magnet_pickup_and_effect (s : GameState) (nh : Cell) (now : ℚ) :
    (s.magnet = some nh →
      tickMagnetPickupStep s nh now =
        ({ s with magnetActive := true, magnetUntil := now + 15000, magnet := none }, true)) ∧
    (s.magnetActive = true → now < s.magnetUntil →
      (tickMagnetEffectStep s now).1.apples =
          s.apples.filter (fun a => !decide (dist2 a s.snake.headI ≤ 9)) ∧
        (tickMagnetEffectStep s now).1.score =
          s.score +
            10 * (((s.apples.filter fun a => decide (dist2 a s.snake.headI ≤ 9)).length : ℤ)) ∧
        ((tickMagnetEffectStep s now).2 = true ↔
          ∃ a ∈ s.apples, dist2 a s.snake.headI ≤ 9)) ∧
    (s.magnetActive = true → s.magnetUntil ≤ now →
      tickMagnetEffectStep s now = ({ s with magnetActive := false }, false)) := by
  refine ⟨fun hm => ?_, fun hA hlt => ?_, fun hA hle => ?_⟩
  · unfold tickMagnetPickupStep
    rw [if_pos hm]
  · have htaken : magnetTaken s =
        (s.apples.filter fun a => decide (dist2 a s.snake.headI ≤ 9)).length := by
      have hp := List.length_eq_length_filter_add (l := s.apples)
        (fun a => decide (dist2 a s.snake.headI ≤ 9))
      have hk : (magnetKept s).length =
          (s.apples.filter fun a => !decide (dist2 a s.snake.headI ≤ 9)).length := rfl
      unfold magnetTaken
      omega
    have hpos : (0 < magnetTaken s) ↔ ∃ a ∈ s.apples, dist2 a s.snake.headI ≤ 9 := by
      rw [htaken, ← List.countP_eq_length_filter]
      simp [List.countP_pos_iff]
    unfold tickMagnetEffectStep
    rw [if_pos hA, if_neg (not_le.mpr hlt)]
    by_cases h0 : 0 < magnetTaken s
    · rw [if_pos h0]
      refine ⟨rfl, ?_, ?_⟩
      · dsimp only
        rw [htaken]
      · dsimp only
        exact iff_of_true rfl (hpos.mp h0)
    · rw [if_neg h0]
      refine ⟨rfl, ?_, ?_⟩
      · dsimp only
        have hz : (s.apples.filter fun a => decide (dist2 a s.snake.headI ≤ 9)).length = 0 := by
          omega
        rw [hz]
        simp
      · dsimp only
        simp only [Bool.false_eq_true, false_iff]
        exact fun hex => h0 (hpos.mpr hex)
  · unfold tickMagnetEffectStep
    rw [if_pos hA, if_pos hle]

/-- C3 counterexample: ticking `c3State` (head landing on the bomb) with
the randomness `c3Rand` produces a duplicated apple cell.  Candidates 0 and
1 of the explosion both round to offset (2,1) - angles 3/10 and pi/7 at
distance 2 - and the occupancy filter only checks the pre-explosion state,
so the cell (12,11) is pushed twice. -/
theorem explosion_duplicate_apples :
    ∃ s2, tick c3State 0 c3Rand = some s2 ∧ c3State.apples.Nodup ∧ ¬ s2.apples.Nodup := by
  have hpick : tickPickups (tickHeadState c3State) (newHeadOf c3State) 0 c3Rand =
      ({ spawnAppleExplosion (tickHeadState c3State) (newHeadOf c3State) c3Rand.expOffsets
          with bomb := none }, true) := by
    unfold tickPickups
    rw [tickEatStep_bomb_case _ _ _ (by decide)]
    dsimp only
    rw [tickMagnetPickupStep_no _ _ _ fun hx => Option.noConfusion hx]
    dsimp only
    rw [tickRocketPickupStep_no _ _ _ _ fun hx => Option.noConfusion hx]
    dsimp only
    rw [tickMagnetEffectStep_no _ _ rfl]
    simp
  have hA : tickPopStep (tickPickups (tickHeadState c3State) (newHeadOf c3State) 0 c3Rand) =
      { spawnAppleExplosion (tickHeadState c3State) (newHeadOf c3State) c3Rand.expOffsets
        with bomb := none } := by
    rw [hpick, tickPopStep_keep _ rfl]
  have hoffs : c3Rand.expOffsets =
      explosionOffset 14 4 0 (3 / 4) 0 :: explosionOffset 14 4 1 0 0 ::
        (List.drop 2 (List.range 14)).map
          (fun i => explosionOffset 14 4 i (c3Jit i) (c3Dist i)) := by
    show (List.range 14).map (fun i => explosionOffset 14 4 i (c3Jit i) (c3Dist i)) = _
    rw [show List.range 14 = 0 :: 1 :: List.drop 2 (List.range 14) by decide]
    rfl
  have hcands : ∃ rest, explosionCandidates (tickHeadState c3State) (newHeadOf c3State)
      c3Rand.expOffsets = ⟨12, 11⟩ :: ⟨12, 11⟩ :: rest := by
    refine ⟨(((List.drop 2 (List.range 14)).map
        (fun i => explosionOffset 14 4 i (c3Jit i) (c3Dist i))).map
          (fun o => wrapCell (tickHeadState c3State).walls
            ⟨(newHeadOf c3State).x + o.1, (newHeadOf c3State).y + o.2⟩)).filter
        (fun w => !outOfBounds w && !isCellOccupied (tickHeadState c3State) w), ?_⟩
    unfold explosionCandidates
    rw [hoffs, c3_offset_0, c3_offset_1]
    rfl
  rcases hcands with ⟨rest, hcand⟩
  have happles : (tickPopStep (tickPickups (tickHeadState c3State) (newHeadOf c3State) 0
      c3Rand)).apples = ⟨0, 0⟩ :: ⟨12, 11⟩ :: ⟨12, 11⟩ :: rest := by
    rw [hA]
    show (spawnAppleExplosion (tickHeadState c3State) (newHeadOf c3State)
      c3Rand.expOffsets).apples = _
    unfold spawnAppleExplosion
    dsimp only
    rw [hcand]
    rfl
  have hract : (tickPopStep (tickPickups (tickHeadState c3State) (newHeadOf c3State) 0
      c3Rand)).rocketActive = none := by
    rw [hA]
    rfl
  have htick : tick c3State 0 c3Rand =
      some (tickPopStep (tickPickups (tickHeadState c3State) (newHeadOf c3State) 0 c3Rand)) :=
    tick_eval c3State 0 c3Rand (by decide) (by rw [happles]; simp)
      (by show ¬ (1 : ℚ) < 2 / 100; norm_num) (by show ¬ (1 : ℚ) < 15 / 1000; norm_num)
      (by show ¬ (1 : ℚ) < 12 / 1000; norm_num) hract
  refine ⟨_, htick, by decide, ?_⟩
  rw [happles]
  intro hnd
  rcases List.nodup_cons.mp hnd with ⟨_, hnd2⟩
  rcases List.nodup_cons.mp hnd2 with ⟨hnotmem, _⟩
  exact hnotmem (List.mem_cons_self _ _)

/-- C3 amended: outside the bomb explosion the apple set stays duplicate
free - rocket drops re-check occupancy against the live apple list before
every push and the respawn adds one apple to an empty set - and even
explosion candidates are never equal to a pre-explosion apple; only
explosion candidates of the same batch can coincide (see the
counterexample). -/
theorem apples_nodup_outside_explosion (s s2 : GameState) (now : ℚ)
    (steer : Option (ℚ × ℚ)) (jit stream : ℕ → ℚ × ℚ) (fuel : ℕ)
    (origin : Cell) (offs : List (ℤ × ℤ))
    (h : s.apples.Nodup) (h2 : tickRespawnStep s stream fuel = some s2) :
    (updateRocket s now steer jit).apples.Nodup ∧ s2.apples.Nodup ∧
      ∀ a ∈ explosionCandidates s origin offs, a ∉ s.apples := by
  refine ⟨?_, ?_, ?_⟩
  · unfold updateRocket
    rcases hr : s.rocketActive with _ | r0
    · exact h
    · show (updateRocketFinish now (rocketDropLoop now jit
        (updateRocketMoved r0 now steer).dropsLeft s (updateRocketMoved r0 now steer))).apples.Nodup
      have hl := rocketDropLoop_nodup now (updateRocketMoved r0 now steer).dropsLeft jit s
        (updateRocketMoved r0 now steer) h
      unfold updateRocketFinish
      split
      · exact hl
      · exact hl
  · unfold tickRespawnStep at h2
    split at h2
    · rename_i he
      rcases Option.map_eq_some'.mp h2 with ⟨c, _, hf⟩
      cases hf
      dsimp only
      rw [List.isEmpty_iff.mp he]
      simp
    · cases h2
      exact h
  · intro a ha hmem
    unfold explosionCandidates at ha
    rw [List.mem_filter] at ha
    rcases ha with ⟨_, hp⟩
    rw [Bool.and_eq_true] at hp
    rcases hp with ⟨_, hocc⟩
    have hup : isCellOccupied s a = true := by
      simp [isCellOccupied, List.contains, List.elem_iff]
      exact Or.inr hmem
    simp [hup] at hocc

/-- C3 amended witness: on `c1State` (distinct apples, no active rocket)
the rocket update and the respawn keep the apples distinct, and no
explosion candidate from (10,10) equals an existing apple. -/
theorem apples_nodup_outside_explosion_witness :
    (updateRocket c1State 0 none (fun _ => (0, 0))).apples.Nodup ∧
      c1State.apples.Nodup ∧
      ∀ a ∈ explosionCandidates c1State ⟨10, 10⟩ [(2, 1), (2, 1)], a ∉ c1State.apples :=
  apples_nodup_outside_explosion c1State c1State 0 none (fun _ => (0, 0)) (fun _ => (0, 0))
    1 ⟨10, 10⟩ [(2, 1), (2, 1)] (by decide) (by decide)

/-- C4 counterexample: with the randomness `c4Rand` the bomb tick from
`c3State` adds an apple at (15,10), whose straight-line distance from the
impact cell (10,10) is 5 - strictly more than the claimed radius 4.  The
source draws `dist = 2 + floor(random * radius)`, whose range is 2..5, not
2..4. -/
theorem explosion_distance_counterexample :
    ∃ a, a ∈ (tickEatStep (tickHeadState c3State) (newHeadOf c3State)
        c4Rand.expOffsets).1.apples ∧
      a ∉ c3State.apples ∧ 16 < dist2 a (newHeadOf c3State) := by
  refine ⟨⟨15, 10⟩, ?_, by decide, by decide⟩
  rw [tickEatStep_bomb_case _ _ _ (by decide)]
  dsimp only
  show (⟨15, 10⟩ : Cell) ∈ (spawnAppleExplosion (tickHeadState c3State) (newHeadOf c3State)
    c4Rand.expOffsets).apples
  unfold spawnAppleExplosion
  dsimp only
  rw [List.mem_append]
  refine Or.inr ?_
  unfold explosionCandidates
  rw [List.mem_filter]
  constructor
  · rw [List.mem_map]
    refine ⟨(5, 0), ?_, by decide⟩
    have hoffs4 : c4Rand.expOffsets = explosionOffset 14 4 0 0 (3 / 4) ::
        (List.drop 1 (List.range 14)).map (fun i => explosionOffset 14 4 i 0 (c4Dist i)) := by
      show (List.range 14).map (fun i => explosionOffset 14 4 i 0 (c4Dist i)) = _
      rw [show List.range 14 = 0 :: List.drop 1 (List.range 14) by decide]
      rfl
    rw [hoffs4, c4_offset_0]
    exact List.mem_cons_self _ _
  · decide

/-- C4 amended: on a bomb tick the snake grows by exactly one segment; 14
candidate offsets are generated; every candidate actually added is in
bounds, was unoccupied at explosion time, and is the wrap of the impact
cell plus an offset whose components are bounded by 5 in absolute value
(the drawn distance ranges over 2..radius+1 = 2..5, and rounding the
trigonometric components cannot exceed the distance). -/
theorem explosion_candidates_bounded (s : GameState) (now : ℚ) (tr : TickRand)
    (jits dists : ℕ → ℚ) (hv : ∀ i, 0 ≤ dists i ∧ dists i < 1)
    (hoffs : tr.expOffsets =
      (List.range 14).map fun i => explosionOffset 14 4 i (jits i) (dists i))
    (hbomb : s.bomb = some (newHeadOf s)) :
    (tickPopStep (tickPickups (tickHeadState s) (newHeadOf s) now tr)).snake.length =
      s.snake.length + 1 ∧
    tr.expOffsets.length = 14 ∧
    ∀ a ∈ explosionCandidates (tickHeadState s) (newHeadOf s) tr.expOffsets,
      outOfBounds a = false ∧ isCellOccupied (tickHeadState s) a = false ∧
      ∃ o ∈ tr.expOffsets,
        a = wrapCell s.walls ⟨(newHeadOf s).x + o.1, (newHeadOf s).y + o.2⟩ ∧
        |o.1| ≤ 5 ∧ |o.2| ≤ 5 := by
  refine ⟨?_, ?_, ?_⟩
  · have hflag : (tickPickups (tickHeadState s) (newHeadOf s) now tr).2 = true := by
      rw [tickPickups_flag]
      unfold growthSourceFired bombFired
      simp [hbomb]
    rw [tickPopStep_keep _ hflag, tickPickups_snake]
    show (newHeadOf s :: s.snake).length = s.snake.length + 1
    simp
  · rw [hoffs]
    simp
  · intro a ha
    unfold explosionCandidates at ha
    rw [List.mem_filter] at ha
    rcases ha with ⟨hmap, hp⟩
    rw [Bool.and_eq_true] at hp
    rcases hp with ⟨hob, hocc⟩
    refine ⟨by simpa using hob, by simpa using hocc, ?_⟩
    rw [List.mem_map] at hmap
    rcases hmap with ⟨o, ho, hga⟩
    refine ⟨o, ho, hga.symm, ?_, ?_⟩
    · rw [hoffs] at ho
      rw [List.mem_map] at ho
      rcases ho with ⟨i, _, hoi⟩
      rw [← hoi]
      have hd0 : (0 : ℤ) ≤ 2 + ⌊dists i * ((4 : ℕ) : ℚ)⌋ := by
        have hf : (0 : ℤ) ≤ ⌊dists i * ((4 : ℕ) : ℚ)⌋ :=
          Int.floor_nonneg.mpr (mul_nonneg (hv i).1 (by norm_num))
        omega
      have hd5 : 2 + ⌊dists i * ((4 : ℕ) : ℚ)⌋ ≤ 5 := by
        have h4 : dists i * ((4 : ℕ) : ℚ) < 4 := by
          have h2 := (hv i).2
          push_cast
          linarith
        have hf : ⌊dists i * ((4 : ℕ) : ℚ)⌋ < 4 := Int.floor_lt.mpr (by exact_mod_cast h4)
        omega
      unfold explosionOffset
      dsimp only
      exact le_trans (abs_round_mul_le _ (Real.neg_one_le_cos _) (Real.cos_le_one _) _ hd0) hd5
    · rw [hoffs] at ho
      rw [List.mem_map] at ho
      rcases ho with ⟨i, _, hoi⟩
      rw [← hoi]
      have hd0 : (0 : ℤ) ≤ 2 + ⌊dists i * ((4 : ℕ) : ℚ)⌋ := by
        have hf : (0 : ℤ) ≤ ⌊dists i * ((4 : ℕ) : ℚ)⌋ :=
          Int.floor_nonneg.mpr (mul_nonneg (hv i).1 (by norm_num))
        omega
      have hd5 : 2 + ⌊dists i * ((4 : ℕ) : ℚ)⌋ ≤ 5 := by
        have h4 : dists i * ((4 : ℕ) : ℚ) < 4 := by
          have h2 := (hv i).2
          push_cast
          linarith
        have hf : ⌊dists i * ((4 : ℕ) : ℚ)⌋ < 4 := Int.floor_lt.mpr (by exact_mod_cast h4)
        omega
      unfold explosionOffset
      dsimp only
      exact le_trans (abs_round_mul_le _ (Real.neg_one_le_sin _) (Real.sin_le_one _) _ hd0) hd5

/-- C4 amended witness: the bomb tick from `c3State` with `c4Rand`. -/
theorem explosion_candidates_bounded_witness :
    (tickPopStep (tickPickups (tickHeadState c3State) (newHeadOf c3State) 0
        c4Rand)).snake.length = c3State.snake.length + 1 ∧
    c4Rand.expOffsets.length = 14 ∧
    ∀ a ∈ explosionCandidates (tickHeadState c3State) (newHeadOf c3State) c4Rand.expOffsets,
      outOfBounds a = false ∧ isCellOccupied (tickHeadState c3State) a = false ∧
      ∃ o ∈ c4Rand.expOffsets,
        a = wrapCell c3State.walls ⟨(newHeadOf c3State).x + o.1, (newHeadOf c3State).y + o.2⟩ ∧
        |o.1| ≤ 5 ∧ |o.2| ≤ 5 :=
  explosion_candidates_bounded c3State 0 c4Rand (fun _ => 0) c4Dist
    (fun _ => ⟨by norm_num [c4Dist], by norm_num [c4Dist]⟩) rfl (by decide)

/-- C8 witness: on `c8State` (head (10,10), apples at distances 1, 3, 5,
active magnet until 15000, pickup at (7,7)) the pickup conclusion and the
active-collection conclusion hold at time 0; on `c8ExpiredState` (expiry 0)
the effect deactivates without collecting. -/
theorem magnet_pickup_and_effect_witness :
    (tickMagnetPickupStep c8State ⟨7, 7⟩ 0 =
      ({ c8State with magnetActive := true, magnetUntil := 0 + 15000, magnet := none }, true)) ∧
    (tickMagnetEffectStep c8State 0).1.apples =
      c8State.apples.filter (fun a => !decide (dist2 a c8State.snake.headI ≤ 9)) ∧
    (tickMagnetEffectStep c8ExpiredState 0 =
      ({ c8ExpiredState with magnetActive := false }, false)) :=
  ⟨(magnet_pickup_and_effect c8State ⟨7, 7⟩ 0).1 (by decide),
    ((magnet_pickup_and_effect c8State ⟨7, 7⟩ 0).2.1 (by decide)
      (by with_unfolding_all decide)).1,
    (magnet_pickup_and_effect c8ExpiredState ⟨7, 7⟩ 0).2.2 (by decide)
      (by with_unfolding_all decide)⟩

end VibeSnake
